import Mathlib

/-!
Verification development for the docker_bot repository (src/bot.py and
src/docker_client.py). Python text values are embedded as lists of
characters; the parsing, truncation and dispatch logic of the two source
files is translated into executable Lean definitions, and the claimed
properties are proved about those definitions.
-/

/-- Python strings are embedded as lists of characters. -/
abbrev Str := List Char

/-- Accumulator for `splitOne`. -/
def splitOneAux (sep : Char) : Str → Str → List Str
  | [], acc => [acc.reverse]
  | c :: cs, acc =>
    if c = sep then acc.reverse :: splitOneAux sep cs []
    else splitOneAux sep cs (c :: acc)

/-- Python `s.split(sep)` for a one-character separator: every occurrence of
`sep` separates fields, empty fields are kept, and the empty string splits
to one empty field. -/
def splitOne (sep : Char) (s : Str) : List Str := splitOneAux sep s []

/-- Characters removed by Python `str.strip()`. -/
def isPySpace (c : Char) : Bool :=
  c = ' ' || c = '\t' || c = '\n' || c = '\r' || c = Char.ofNat 11 || c = Char.ofNat 12

/-- Python `s.strip()`: drop leading and trailing whitespace. -/
def pyStrip (s : Str) : Str :=
  ((s.dropWhile isPySpace).reverse.dropWhile isPySpace).reverse

/-- Python `sep.join(xs)`. -/
def pyJoin (sep : Str) : List Str → Str
  | [] => []
  | [x] => x
  | x :: y :: xs => x ++ sep ++ pyJoin sep (y :: xs)

/-- Container record built by `DockerClient.get_containers`
(src/docker_client.py lines 47-52): the first four tab-separated fields of
one output line. -/
structure ContainerSummary where
  id : Str
  name : Str
  status : Str
  image : Str
deriving DecidableEq, Repr

/-- Body of the per-line loop of `DockerClient.get_containers`
(src/docker_client.py lines 43-52): an empty line is skipped (`if line:`),
a line is tab-split, and only lines with at least four fields produce a
record (`if len(parts) >= 4:`), built from the first four fields. -/
def parseContainerLine (line : Str) : Option ContainerSummary :=
  if line = [] then none
  else
    match splitOne '\t' line with
    | a :: b :: c :: d :: _ => some ⟨a, b, c, d⟩
    | _ => none

/-- Parsing stage of `DockerClient.get_containers`
(src/docker_client.py lines 42-54): `result.strip().split('\n')`, then the
per-line loop appending the well-formed records in order. -/
def get_containers_parse (result : Str) : List ContainerSummary :=
  (splitOne '\n' (pyStrip result)).filterMap parseContainerLine

/-- A line whose tab-split has fewer than four fields yields no record. -/
theorem parseContainerLine_short (bad : Str)
    (h : (splitOne '\t' bad).length < 4) : parseContainerLine bad = none := by
  unfold parseContainerLine
  split
  · rfl
  · split
    · rename_i a b c d rest heq
      rw [heq] at h
      simp at h
      omega
    · rfl

/-- Raw listing with three well-formed lines and one line missing a column. -/
def c1SampleRaw : Str :=
  ("id1\tweb\tUp 2 hours\tnginx\nid2\tdb\tExited (0)\tpostgres\nid3\tcache\tUp 5 minutes\tredis\nid4\tbroken\tUp").data

/-- The three records parsed from the well-formed lines of `c1SampleRaw`. -/
def c1Expected : List ContainerSummary :=
  [⟨("id1").data, ("web").data, ("Up 2 hours").data, ("nginx").data⟩,
   ⟨("id2").data, ("db").data, ("Exited (0)").data, ("postgres").data⟩,
   ⟨("id3").data, ("cache").data, ("Up 5 minutes").data, ("redis").data⟩]

/-- C1: listing output is parsed line by line; a line whose tab-split has
fewer than four columns is skipped and leaves the other entries unchanged,
and the concrete input of three valid lines plus one line missing a column
yields exactly the three records of the valid lines. -/
theorem c1_malformed_line_skipped :
    (∀ (ls1 ls2 : List Str) (bad : Str), (splitOne '\t' bad).length < 4 →
      (ls1 ++ bad :: ls2).filterMap parseContainerLine
        = (ls1 ++ ls2).filterMap parseContainerLine)
    ∧ get_containers_parse c1SampleRaw = c1Expected := by
  constructor
  · intro ls1 ls2 bad h
    simp [List.filterMap_append, List.filterMap_cons, parseContainerLine_short bad h]
  · decide

/-- C1 witness: the general part of `c1_malformed_line_skipped` applied to
the concrete malformed line of the sample. -/
theorem c1_malformed_line_skipped_witness :
    (splitOne '\t' (("id4\tbroken\tUp").data)).length < 4
    ∧ ([] ++ (("id4\tbroken\tUp").data) :: []).filterMap parseContainerLine
        = (([] : List Str) ++ []).filterMap parseContainerLine :=
  ⟨by decide, c1_malformed_line_skipped.1 [] [] (("id4\tbroken\tUp").data) (by decide)⟩

/-- Display cap of the logs view, src/bot.py line 260 (`len(logs) > 3000`). -/
def LOGS_CAP : Nat := 3000

/-- Truncation marker appended in src/bot.py line 261. -/
def logsMarker : Str := ("\n\n... (показаны последние 20 строк)").data

/-- Truncation step of the logs action, src/bot.py lines 260-261:
`if len(logs) > 3000: logs = logs[-3000:] + marker`. The Python slice
`logs[-3000:]` keeps the last 3000 characters; the marker is appended
after the kept tail. -/
def truncate_logs (logs : Str) : Str :=
  if LOGS_CAP < logs.length then List.drop (logs.length - LOGS_CAP) logs ++ logsMarker
  else logs

/-- A log text longer than the cap. -/
def c2Long : Str := List.replicate (LOGS_CAP + 1) 'a'

/-- C2 counterexample: on a log of 3001 characters the displayed text is
longer than the cap (it is the 3000-character tail with the marker appended
after it), refuting the claim that the returned text's length is at most
the cap with the marker prefixed. -/
theorem c2_counterexample : ¬ (truncate_logs c2Long).length ≤ LOGS_CAP := by
  have h : (truncate_logs c2Long).length = LOGS_CAP + logsMarker.length := by
    simp [truncate_logs, c2Long]
  rw [h]
  decide

/-- C2 amended: for a log longer than the cap, the displayed text is the
last `LOGS_CAP` characters of the log — a suffix of the original of length
exactly the cap — with the truncation marker appended after it, so the
total length is the cap plus the marker length. -/
theorem c2_amended (logs : Str) (h : LOGS_CAP < logs.length) :
    truncate_logs logs = List.drop (logs.length - LOGS_CAP) logs ++ logsMarker
    ∧ (List.drop (logs.length - LOGS_CAP) logs).length = LOGS_CAP
    ∧ List.drop (logs.length - LOGS_CAP) logs <:+ logs
    ∧ (truncate_logs logs).length = LOGS_CAP + logsMarker.length := by
  refine ⟨by simp [truncate_logs, h], ?_, List.drop_suffix _ _, ?_⟩
  · rw [List.length_drop]
    omega
  · simp [truncate_logs, h, List.length_drop]
    omega

/-- C2 witness: `c2_amended` applied to the concrete 3001-character log. -/
theorem c2_amended_witness :
    LOGS_CAP < c2Long.length
    ∧ truncate_logs c2Long = List.drop (c2Long.length - LOGS_CAP) c2Long ++ logsMarker :=
  ⟨by simp [c2Long], (c2_amended c2Long (by simp [c2Long])).1⟩

/-- Outcome of one finished subprocess: exit status and the two captured,
UTF-8 decoded streams (src/docker_client.py lines 24-30). -/
structure ProcResult where
  returncode : Int
  stdout : Str
  stderr : Str
deriving DecidableEq

/-- Message head of the single raise site of `_run_ssh_command`
(src/docker_client.py line 33). -/
def sshErrorHead : Str := ("SSH команда завершилась с ошибкой: ").data

/-- `DockerClient._run_ssh_command` after the subprocess has finished
(src/docker_client.py lines 32-35): non-zero exit raises one exception
carrying the decoded standard error; zero exit returns the decoded
standard output unchanged. -/
def run_ssh_command (p : ProcResult) : Except Str Str :=
  if p.returncode ≠ 0 then Except.error (sshErrorHead ++ p.stderr)
  else Except.ok p.stdout

/-- C4: the executor fails exactly when the exit status is non-zero, the
only error it produces carries the captured standard-error text after the
fixed message head, and on zero exit it returns the captured standard
output as-is (trailing whitespace preserved). -/
theorem c4_run_ssh_command (p : ProcResult) :
    ((∃ e, run_ssh_command p = Except.error e) ↔ p.returncode ≠ 0)
    ∧ (p.returncode ≠ 0 → run_ssh_command p = Except.error (sshErrorHead ++ p.stderr))
    ∧ (p.returncode = 0 → run_ssh_command p = Except.ok p.stdout) := by
  unfold run_ssh_command
  by_cases h : p.returncode = 0 <;> simp [h]

/-- C4 witness: `c4_run_ssh_command` at a failing process result. -/
theorem c4_run_ssh_command_witness :
    ((1 : Int) ≠ 0)
    ∧ run_ssh_command ⟨1, ("out").data, ("err").data⟩
        = Except.error (sshErrorHead ++ ("err").data) :=
  ⟨by decide, (c4_run_ssh_command ⟨1, ("out").data, ("err").data⟩).2.1 (by decide)⟩

/-- `DockerBot.start_container` (src/bot.py lines 88-96): the runtime
get-and-start call either succeeds or raises; the exception is swallowed
and the method returns False, success returns True. The argument is the
outcome of the runtime call. -/
def DockerBot_start_container (outcome : Except Str Unit) : Bool :=
  match outcome with
  | Except.ok _ => true
  | Except.error _ => false

/-- `DockerBot.stop_container` (src/bot.py lines 98-106), same shape. -/
def DockerBot_stop_container (outcome : Except Str Unit) : Bool :=
  match outcome with
  | Except.ok _ => true
  | Except.error _ => false

/-- `DockerBot.restart_container` (src/bot.py lines 108-116), same shape. -/
def DockerBot_restart_container (outcome : Except Str Unit) : Bool :=
  match outcome with
  | Except.ok _ => true
  | Except.error _ => false

/-- `DockerClient.start_container` (src/docker_client.py lines 73-77):
runs the command through `_run_ssh_command` — whose exception propagates —
and returns True on success. The argument is the finished subprocess. -/
def DockerClient_start_container (p : ProcResult) : Except Str Bool :=
  match run_ssh_command p with
  | Except.error e => Except.error e
  | Except.ok _ => Except.ok true

/-- `DockerClient.stop_container` (src/docker_client.py lines 79-83). -/
def DockerClient_stop_container (p : ProcResult) : Except Str Bool :=
  match run_ssh_command p with
  | Except.error e => Except.error e
  | Except.ok _ => Except.ok true

/-- `DockerClient.restart_container` (src/docker_client.py lines 85-89). -/
def DockerClient_restart_container (p : ProcResult) : Except Str Bool :=
  match run_ssh_command p with
  | Except.error e => Except.error e
  | Except.ok _ => Except.ok true

/-- C7: in the local-socket implementation start/stop/restart swallow the
runtime failure into False and return True on success; in the remote-shell
implementation they re-raise the executor's error unchanged on non-zero
exit and return True on zero exit. -/
theorem c7_action_error_policy (e : Str) (u : Unit) (p : ProcResult) :
    (DockerBot_start_container (Except.error e) = false
      ∧ DockerBot_stop_container (Except.error e) = false
      ∧ DockerBot_restart_container (Except.error e) = false)
    ∧ (DockerBot_start_container (Except.ok u) = true
      ∧ DockerBot_stop_container (Except.ok u) = true
      ∧ DockerBot_restart_container (Except.ok u) = true)
    ∧ (p.returncode ≠ 0 →
        DockerClient_start_container p = Except.error (sshErrorHead ++ p.stderr)
        ∧ DockerClient_stop_container p = Except.error (sshErrorHead ++ p.stderr)
        ∧ DockerClient_restart_container p = Except.error (sshErrorHead ++ p.stderr))
    ∧ (p.returncode = 0 →
        DockerClient_start_container p = Except.ok true
        ∧ DockerClient_stop_container p = Except.ok true
        ∧ DockerClient_restart_container p = Except.ok true) := by
  refine ⟨⟨rfl, rfl, rfl⟩, ⟨rfl, rfl, rfl⟩, ?_, ?_⟩
  · intro h
    simp [DockerClient_start_container, DockerClient_stop_container,
      DockerClient_restart_container, run_ssh_command, h]
  · intro h
    simp [DockerClient_start_container, DockerClient_stop_container,
      DockerClient_restart_container, run_ssh_command, h]

/-- C7 witness: `c7_action_error_policy` at a failing and at a succeeding
process result. -/
theorem c7_action_error_policy_witness :
    ((1 : Int) ≠ 0
      ∧ DockerClient_start_container ⟨1, [], ("boom").data⟩
          = Except.error (sshErrorHead ++ ("boom").data))
    ∧ ((0 : Int) = 0
      ∧ DockerClient_start_container ⟨0, [], []⟩ = Except.ok true) :=
  ⟨⟨by decide, ((c7_action_error_policy [] () ⟨1, [], ("boom").data⟩).2.2.1 (by decide)).1⟩,
   ⟨rfl, ((c7_action_error_policy [] () ⟨0, [], []⟩).2.2.2 rfl).1⟩⟩

/-- Numeric value of a decimal digit string. -/
def digitsToNat (ds : Str) : Nat := ds.foldl (fun n c => 10 * n + (c.toNat - 48)) 0

/-- Sign handling of a Python numeric literal: a leading minus gives true. -/
def splitSign (s : Str) : Bool × Str :=
  match s with
  | '-' :: t => (true, t)
  | '+' :: t => (false, t)
  | _ => (false, s)

/-- Exponent tail of a float literal: nothing, or e/E then an optionally
signed nonempty digit run reaching the end of the string. -/
def parseExpTail (s : Str) : Option Int :=
  match s with
  | [] => some 0
  | c :: r =>
    if c = 'e' ∨ c = 'E' then
      let sr := splitSign r
      let ds := sr.2.takeWhile Char.isDigit
      if ds = [] ∨ sr.2.dropWhile Char.isDigit ≠ [] then none
      else some (if sr.1 then -(digitsToNat ds : Int) else (digitsToNat ds : Int))
    else none

/-- Model of Python `float(s)` over the decimal forms the stats output can
contain: whitespace is stripped, then an optional sign, a mantissa of
digits with an optional fractional part (at least one digit overall), and
an optional exponent; anything else raises ValueError, modelled as `none`.
Values are exact rationals. -/
def parseFloatQ (s : Str) : Option ℚ :=
  let t := pyStrip s
  let sg := splitSign t
  let u := sg.2
  let intDs := u.takeWhile Char.isDigit
  let rest1 := u.dropWhile Char.isDigit
  let fr : Str × Str :=
    match rest1 with
    | '.' :: r => (r.takeWhile Char.isDigit, r.dropWhile Char.isDigit)
    | _ => ([], rest1)
  if intDs = [] ∧ fr.1 = [] then none
  else
    match parseExpTail fr.2 with
    | none => none
    | some e =>
      let mag : ℚ := (digitsToNat intDs : ℚ) + (digitsToNat fr.1 : ℚ) / ((10 : ℚ) ^ fr.1.length)
      let v : ℚ := mag * (10 : ℚ) ^ e
      some (if sg.1 then -v else v)

/-- Python `s.replace(percent, empty)`: every percent sign removed. -/
def removePercent (s : Str) : Str := s.filter (fun c => ¬ (c = '%'))

/-- Decimal rendering of a Nat, for the f-string counters. -/
def natToStr (n : Nat) : Str := Nat.toDigits 10 n

/-- Record built by `DockerClient.get_stats` (src/docker_client.py lines
133-138). Percentages are exact rationals standing for the Python floats. -/
structure ServerStats where
  cpu_percent : ℚ
  memory_percent : ℚ
  disk_percent : ℚ
  containers : Str
deriving DecidableEq

/-- Message of the ValueError raised by a failed float conversion. -/
def floatValueError (x : Str) : Str :=
  ("could not convert string to float: ").data ++ Char.ofNat 39 :: (x ++ [Char.ofNat 39])

/-- Count of listed containers whose status starts with `Up`
(src/docker_client.py line 131). -/
def runningCount (cs : List ContainerSummary) : Nat :=
  (cs.filter (fun c => List.isPrefixOf (("Up").data) c.status)).length

/-- The `containers` field `f"{running}/{len(containers)}"`
(src/docker_client.py line 137), from the raw listing output. -/
def countsLabel (containersRaw : Str) : Str :=
  let cs := get_containers_parse containersRaw
  natToStr (runningCount cs) ++ '/' :: natToStr cs.length

/-- `DockerClient.get_stats` after its two SSH calls succeeded
(src/docker_client.py lines 114-138): first argument the raw docker stats
output, second the raw docker ps output. Both percentages default to 0
when the stats output is empty or its first line has fewer than three
tab-separated columns; otherwise `float(parts[0].replace(percent, empty))`
and the same for column 2 run with no surrounding try, so a failed
conversion raises ValueError out of the method (modelled as the error
case). -/
def get_stats_model (statsRaw containersRaw : Str) : Except Str ServerStats :=
  let stripped := pyStrip statsRaw
  let percents : Except Str (ℚ × ℚ) :=
    if stripped = [] then Except.ok (0, 0)
    else
      match splitOne '\n' stripped with
      | [] => Except.ok (0, 0)
      | l0 :: _ =>
        let parts := splitOne '\t' l0
        if 3 ≤ parts.length then
          match parseFloatQ (removePercent (parts.getD 0 [])) with
          | none => Except.error (floatValueError (removePercent (parts.getD 0 [])))
          | some cpu =>
            match parseFloatQ (removePercent (parts.getD 2 [])) with
            | none => Except.error (floatValueError (removePercent (parts.getD 2 [])))
            | some mem => Except.ok (cpu, mem)
        else Except.ok (0, 0)
  match percents with
  | Except.error e => Except.error e
  | Except.ok pm => Except.ok ⟨pm.1, pm.2, 0, countsLabel containersRaw⟩

/-- Stats output whose CPU column is not a number. -/
def c3BadStats : Str := ("abc%\t100MiB / 1GiB\t50%").data

/-- C3 counterexample: with CPU column `abc%`, `get_stats` raises the
ValueError of the failed float conversion instead of defaulting the field
to 0. -/
theorem c3_counterexample :
    get_stats_model c3BadStats [] = Except.error (floatValueError (("abc").data)) := by
  rfl

/-- C3 amended: the percentage fields default to 0 only when the stats
output is empty or its first line has fewer than three columns; a
malformed percentage such as `abc%` makes `get_stats` raise the float
conversion ValueError, while a well-formed percentage converts
successfully and `get_stats` then returns normally. -/
theorem c3_amended :
    (∀ containersRaw : Str,
      get_stats_model [] containersRaw = Except.ok ⟨0, 0, 0, countsLabel containersRaw⟩)
    ∧ (∀ containersRaw : Str,
      get_stats_model (("50%").data) containersRaw
        = Except.ok ⟨0, 0, 0, countsLabel containersRaw⟩)
    ∧ (∀ containersRaw : Str,
      get_stats_model c3BadStats containersRaw
        = Except.error (floatValueError (("abc").data)))
    ∧ (parseFloatQ (removePercent (("12.5%").data))).isSome = true
    ∧ (get_stats_model (("12.5%\t100MiB / 1GiB\t50%").data) []).isOk = true := by
  exact ⟨fun craw => rfl, fun craw => rfl, fun craw => rfl, rfl, rfl⟩

/-- JSON values, the possible results of a successful `json.loads`.
Numbers are embedded as integers: only the shape of the payload matters
to `get_container_info`, which never computes with a numeric field. An
object is its list of key-value pairs (`json.loads` keeps one binding per
key). -/
inductive Json where
  | str : Str → Json
  | num : Int → Json
  | bool : Bool → Json
  | null : Json
  | arr : List Json → Json
  | obj : List (Str × Json) → Json

/-- Python exception kinds arising inside `get_container_info`:
JSONDecodeError from `json.loads`, KeyError and IndexError from
subscripting — these three are caught at src/docker_client.py line 70 —
and TypeError from subscripting or slicing a value of the wrong kind,
which is not caught (Python AttributeError from `.replace` on a
non-string, equally uncaught, is folded into `typeError`). -/
inductive PyErr where
  | jsonDecodeError
  | keyError
  | indexError
  | typeError
deriving DecidableEq

/-- First binding of a key in an object. -/
def lookupField (fields : List (Str × Json)) (k : Str) : Option Json :=
  match fields with
  | [] => none
  | kv :: rest => if kv.1 = k then some kv.2 else lookupField rest k

/-- Python `j[k]` for a string key: dict lookup (KeyError when absent);
any non-dict value raises TypeError. -/
def pyGetKey (j : Json) (k : Str) : Except PyErr Json :=
  match j with
  | Json.obj fields =>
    match lookupField fields k with
    | some v => Except.ok v
    | none => Except.error PyErr.keyError
  | _ => Except.error PyErr.typeError

/-- Python `j[i]` for an integer index: list indexing (IndexError when out
of range), string indexing (one-character string), dict with an integer
key raises KeyError, other values raise TypeError. -/
def pyGetIndex (j : Json) (i : Nat) : Except PyErr Json :=
  match j with
  | Json.arr xs =>
    match xs.get? i with
    | some v => Except.ok v
    | none => Except.error PyErr.indexError
  | Json.str s =>
    match s.get? i with
    | some c => Except.ok (Json.str [c])
    | none => Except.error PyErr.indexError
  | Json.obj _ => Except.error PyErr.keyError
  | _ => Except.error PyErr.typeError

/-- Python `j[:n]` on a string or list; other values raise TypeError. -/
def pySliceTo (n : Nat) (j : Json) : Except PyErr Json :=
  match j with
  | Json.str s => Except.ok (Json.str (s.take n))
  | Json.arr xs => Except.ok (Json.arr (xs.take n))
  | _ => Except.error PyErr.typeError

/-- Python `j[1:]` on a string or list; other values raise TypeError. -/
def pySliceFromOne (j : Json) : Except PyErr Json :=
  match j with
  | Json.str s => Except.ok (Json.str (s.drop 1))
  | Json.arr xs => Except.ok (Json.arr (xs.drop 1))
  | _ => Except.error PyErr.typeError

/-- Python `j.replace(capitalT, blank)` on a string; non-strings have no
`.replace` (AttributeError, folded into typeError — uncaught either way). -/
def pyReplaceTBlank (j : Json) : Except PyErr Json :=
  match j with
  | Json.str s => Except.ok (Json.str (s.map (fun c => if c = 'T' then ' ' else c)))
  | _ => Except.error PyErr.typeError

/-- Dict built by `get_container_info` (src/docker_client.py lines 63-69);
its values are whatever the subscript chain produced. -/
structure ContainerDetail where
  id : Json
  name : Json
  status : Json
  image : Json
  created : Json

/-- Try-block body of `DockerClient.get_container_info`
(src/docker_client.py lines 61-69) acting on the outcome of `json.loads`
(its error is JSONDecodeError): `data = loads(result)[0]`, then the dict
fields in the source's literal order, `data[Id][:12]`,
`data[Name][1:]`, `data[State][Status]`, `data[Config][Image]`, and
`data[Created][:19].replace(capitalT, blank)`. -/
def get_container_info_body (decoded : Except PyErr Json) :
    Except PyErr ContainerDetail := do
  let root ← decoded
  let data ← pyGetIndex root 0
  let idv ← pyGetKey data (("Id").data) >>= pySliceTo 12
  let namev ← pyGetKey data (("Name").data) >>= pySliceFromOne
  let statev ← pyGetKey data (("State").data)
  let statusv ← pyGetKey statev (("Status").data)
  let confv ← pyGetKey data (("Config").data)
  let imagev ← pyGetKey confv (("Image").data)
  let createdv ← (pyGetKey data (("Created").data) >>= pySliceTo 19) >>= pyReplaceTBlank
  return ⟨idv, namev, statusv, imagev, createdv⟩

/-- Message head of the re-raise in the except clause of
`get_container_info` (src/docker_client.py line 71). -/
def parseErrorHead : Str := ("Ошибка при парсинге информации о контейнере: ").data

/-- Rendered name of a Python exception kind, standing for `f"{e}"`. -/
def pyErrName : PyErr → Str
  | PyErr.jsonDecodeError => ("JSONDecodeError").data
  | PyErr.keyError => ("KeyError").data
  | PyErr.indexError => ("IndexError").data
  | PyErr.typeError => ("TypeError").data

/-- What a caller of `get_container_info` can observe on failure: the
except clause of src/docker_client.py lines 70-71 catches JSONDecodeError,
KeyError and IndexError and re-raises one exception whose message starts
with `parseErrorHead`; any other exception (TypeError) propagates as
itself. -/
inductive InfoError where
  | parseError : Str → InfoError
  | uncaught : PyErr → InfoError
deriving DecidableEq

/-- `DockerClient.get_container_info` from the decoded inspect payload
(src/docker_client.py lines 56-71). -/
def get_container_info_model (decoded : Except PyErr Json) :
    Except InfoError ContainerDetail :=
  match get_container_info_body decoded with
  | Except.ok d => Except.ok d
  | Except.error e =>
    if e = PyErr.jsonDecodeError ∨ e = PyErr.keyError ∨ e = PyErr.indexError then
      Except.error (InfoError.parseError (parseErrorHead ++ pyErrName e))
    else Except.error (InfoError.uncaught e)

/-- A fully well-formed inspect payload: a one-element array whose object
carries string Id, a Name starting with the separator, a State object
with a string Status, a Config object with a string Image, and a string
Created. -/
def inspectPayload (idS nameTail statusS imageS createdS : Str) : Json :=
  Json.arr [Json.obj
    [(("Id").data, Json.str idS),
     (("Name").data, Json.str ('/' :: nameTail)),
     (("State").data, Json.obj [(("Status").data, Json.str statusS)]),
     (("Config").data, Json.obj [(("Image").data, Json.str imageS)]),
     (("Created").data, Json.str createdS)]]

/-- Bind on an error short-circuits. -/
theorem except_error_bind {ε α β : Type} (e : ε) (f : α → Except ε β) :
    (Except.error e >>= f) = Except.error e := rfl

/-- Shape of the try-block body on a one-object array payload: the two
leading subscripts succeed and the field chain starts at the object. -/
theorem info_body_eq (fields : List (Str × Json)) :
    get_container_info_body (Except.ok (Json.arr [Json.obj fields]))
      = ((pyGetKey (Json.obj fields) (("Id").data) >>= pySliceTo 12) >>= fun idv =>
        (pyGetKey (Json.obj fields) (("Name").data) >>= pySliceFromOne) >>= fun namev =>
        pyGetKey (Json.obj fields) (("State").data) >>= fun statev =>
        pyGetKey statev (("Status").data) >>= fun statusv =>
        pyGetKey (Json.obj fields) (("Config").data) >>= fun confv =>
        pyGetKey confv (("Image").data) >>= fun imagev =>
        ((pyGetKey (Json.obj fields) (("Created").data) >>= pySliceTo 19)
          >>= pyReplaceTBlank) >>= fun createdv =>
        pure ⟨idv, namev, statusv, imagev, createdv⟩) := rfl

/-- The two exception messages of the facade never coincide: a parse error
message and an execution error message differ in their fixed heads. -/
theorem parse_exec_messages_disjoint (a b : Str) :
    parseErrorHead ++ a ≠ sshErrorHead ++ b := by
  intro h
  have h0 := congrArg List.head? h
  rw [show parseErrorHead = 'О' :: (("шибка при парсинге информации о контейнере: ").data) from rfl,
      show sshErrorHead = 'S' :: (("SH команда завершилась с ошибкой: ").data) from rfl] at h0
  simp [List.head?] at h0

/-- C5: on a well-formed payload `get_container_info` returns the record
whose name is the payload's name with the leading separator character
stripped (and id cut to 12 characters, created cut to 19 with the T
replaced by a blank); an invalid payload (JSONDecodeError), an empty
array, or an object missing a required key all fail with the ParseError
re-raise, whose message is distinguishable by the caller from every
ExecutionError message of the executor. -/
theorem c5_get_container_info :
    (∀ idS nameTail statusS imageS createdS : Str,
      get_container_info_model (Except.ok (inspectPayload idS nameTail statusS imageS createdS))
        = Except.ok ⟨Json.str (idS.take 12), Json.str nameTail, Json.str statusS,
            Json.str imageS,
            Json.str ((createdS.take 19).map (fun c => if c = 'T' then ' ' else c))⟩)
    ∧ get_container_info_model (Except.error PyErr.jsonDecodeError)
        = Except.error (InfoError.parseError (parseErrorHead ++ pyErrName PyErr.jsonDecodeError))
    ∧ get_container_info_model (Except.ok (Json.arr []))
        = Except.error (InfoError.parseError (parseErrorHead ++ pyErrName PyErr.indexError))
    ∧ (∀ fields : List (Str × Json), lookupField fields (("Id").data) = none →
        get_container_info_model (Except.ok (Json.arr [Json.obj fields]))
          = Except.error (InfoError.parseError (parseErrorHead ++ pyErrName PyErr.keyError)))
    ∧ (∀ a b : Str, parseErrorHead ++ a ≠ sshErrorHead ++ b) := by
  refine ⟨fun idS nameTail statusS imageS createdS => rfl, rfl, rfl, ?_,
    parse_exec_messages_disjoint⟩
  intro fields h
  have h2 : pyGetKey (Json.obj fields) (("Id").data) = Except.error PyErr.keyError := by
    show (match lookupField fields (("Id").data) with
      | some v => Except.ok v
      | none => Except.error PyErr.keyError) = _
    rw [h]
  unfold get_container_info_model
  rw [info_body_eq fields, h2, except_error_bind, except_error_bind]
  rfl

/-- C5 witness: `c5_get_container_info` applied to a payload whose object
has no Id key. -/
theorem c5_get_container_info_witness :
    lookupField [] (("Id").data) = none
    ∧ get_container_info_model (Except.ok (Json.arr [Json.obj []]))
        = Except.error (InfoError.parseError (parseErrorHead ++ pyErrName PyErr.keyError)) :=
  ⟨rfl, c5_get_container_info.2.2.2.1 [] rfl⟩

/-- One inline keyboard button: label and callback data. -/
structure Button where
  label : Str
  callback_data : Str
deriving DecidableEq

/-- Rendered content of one bot message: its text and inline keyboard rows. -/
structure Render where
  text : Str
  keyboard : List (List Button)
deriving DecidableEq

/-- Callback data of the container-list button (src/bot.py line 137). -/
def cbList : Str := ("list").data

/-- Callback data of the stats button (src/bot.py line 138). -/
def cbStats : Str := ("stats").data

/-- Callback data of the back buttons of list and stats views
(src/bot.py lines 201 and 282). -/
def cbBack : Str := ("back").data

/-- Callback data head of a container button (src/bot.py line 197). -/
def cbContainerHead : Str := ("container_").data

/-- Callback data head of an action button (src/bot.py lines 221-226). -/
def cbActionHead : Str := ("action_").data

/-- Label of every back button. -/
def backLabel : Str := ("🔙 Назад").data

/-- Content sent by `DockerBot.start` (src/bot.py lines 136-145). -/
def start_render : Render :=
  ⟨("🐳 *Docker Bot*\n\nВыберите действие:").data,
   [[⟨("📋 Список контейнеров").data, cbList⟩],
    [⟨("📊 Статистика").data, cbStats⟩]]⟩

/-- Content shown by `DockerBot.start_menu` (src/bot.py lines 163-174),
the handler of the `back` callback. -/
def start_menu_render : Render :=
  ⟨("🐳 *Docker Bot*\n\nВыберите действие:").data,
   [[⟨("📋 Список контейнеров").data, cbList⟩],
    [⟨("📊 Статистика").data, cbStats⟩]]⟩

/-- `DockerBot.start` as a function of the configured allow-list and the
acting user (src/bot.py lines 128-145): the access check of lines 130-134
is commented out, so the main menu is rendered for every actor. -/
def start_handler (allowed_users : List Int) (user_id : Int) : Render :=
  start_render

/-- Modelled from the spec: the access gate `isAllowed` of spec section
4.4, present in src/bot.py only as the commented-out check of lines 13-14
and 130-134 — deny when the allow-list is nonempty and the user is not in
it, allow otherwise (an empty allow-list allows all). -/
def isAllowed (allowed_users : List Int) (user_id : Int) : Bool :=
  if allowed_users ≠ [] ∧ user_id ∉ allowed_users then false else true

/-- Denial text of the commented-out check (src/bot.py line 133). -/
def accessDeniedText : Str := ("❌ У вас нет доступа к этому боту.").data

/-- C6 counterexample: with allow-list containing only 42, actor 7 is not
denied — the active code renders the full main menu to actor 7 exactly as
to anyone else (the gate is commented out), refuting the claim that the
gate is applied before every interaction. -/
theorem c6_counterexample :
    start_handler [42] 7 = start_render
    ∧ start_render.text ≠ accessDeniedText := by
  exact ⟨rfl, by decide⟩

/-- C6 amended: no access gate is applied by the running code — `start`
renders the main menu to every actor whatever the allow-list — while the
gate as specified (and as written in the commented-out check) does satisfy
the claimed semantics: with allow-list containing only 42, actor 42 passes
and actor 7 is denied, and an empty allow-list passes everyone. -/
theorem c6_amended :
    (∀ (allowed_users : List Int) (user_id : Int),
      start_handler allowed_users user_id = start_render)
    ∧ isAllowed [42] 42 = true
    ∧ isAllowed [42] 7 = false
    ∧ (∀ user_id : Int, isAllowed [] user_id = true) := by
  refine ⟨fun _ _ => rfl, by decide, by decide, fun user_id => ?_⟩
  simp [isAllowed]

/-- Container record used by `DockerBot.get_containers`
(src/bot.py lines 36-41): name, status, image label. -/
structure BotContainer where
  name : Str
  status : Str
  image : Str
deriving DecidableEq

/-- The running status string compared against in src/bot.py. -/
def runningStatus : Str := ("running").data

/-- Per-container block of the list message (src/bot.py lines 188-192). -/
def containerBlock (c : BotContainer) : Str :=
  (if c.status = runningStatus then ("🟢").data else ("🔴").data)
  ++ (" `").data ++ c.name ++ ("`\n   Статус: ").data ++ c.status
  ++ ("\n   Образ: ").data ++ c.image ++ ("\n\n").data

/-- Per-container button row (src/bot.py lines 194-199): the label shows a
stop glyph for running containers and a start glyph otherwise, and the
callback data is `container_` plus the name. -/
def containerRow (c : BotContainer) : List Button :=
  [⟨(if c.status = runningStatus then ("⏹️").data else ("▶️").data)
      ++ (" ").data ++ c.name,
    cbContainerHead ++ c.name⟩]

/-- `DockerBot.show_containers` (src/bot.py lines 176-204): an empty list
renders a plain not-found message with no keyboard; otherwise a header
plus one block per container, one button row per container, and a final
back row whose callback data is `back`. -/
def show_containers_render (containers : List BotContainer) : Render :=
  if containers = [] then ⟨("📋 Контейнеры не найдены").data, []⟩
  else
    ⟨("📋 *Список контейнеров:*\n\n").data ++ (containers.map containerBlock).flatten,
     containers.map containerRow ++ [[⟨backLabel, cbBack⟩]]⟩

/-- `DockerBot.show_stats` (src/bot.py lines 269-285) given the stats text
and the two container counts; the single back row's callback data is
`back`. -/
def show_stats_render (stats_text : Str) (running total : Nat) : Render :=
  ⟨("📊 *Статистика сервера:*\n\n🌐 Контейнеры: ").data ++ natToStr running
     ++ '/' :: natToStr total ++ ("\n\n").data ++ stats_text,
   [[⟨backLabel, cbBack⟩]]⟩

/-- Name extraction of `DockerBot.show_container_info` (src/bot.py line
208): `query.data.split(underscore)[1]` — only the segment between the
first and the second underscore. The source would raise IndexError on
fewer than two segments; that cannot happen for data starting with
`container_`, and the model returns the empty string there. -/
def show_container_info_parse (data : Str) : Str :=
  (splitOne '_' data).getD 1 []

/-- Success-path content of `DockerBot.show_container_info` (src/bot.py
lines 210-230) for the given status and image label: running containers
get stop and restart rows, others a start row; then a logs row and a back
row whose callback data is `list`. -/
def show_container_info_render (name status image : Str) : Render :=
  ⟨("🐳 *").data ++ name ++ ("*\n\nСтатус: ").data ++ status
     ++ ("\nОбраз: ").data ++ image ++ ("\n\n").data,
   (if status = runningStatus then
      [[⟨("⏹️ Остановить").data, cbActionHead ++ ("stop_").data ++ name⟩],
       [⟨("🔄 Перезапустить").data, cbActionHead ++ ("restart_").data ++ name⟩]]
    else
      [[⟨("▶️ Запустить").data, cbActionHead ++ ("start_").data ++ name⟩]])
   ++ [[⟨("📝 Логи").data, cbActionHead ++ ("logs_").data ++ name⟩],
       [⟨backLabel, cbList⟩]]⟩

/-- Callback parsing of `DockerBot.handle_action` (src/bot.py lines
236-238): split on underscore, take segment 1 as the action, and rejoin
every segment from index 2 on with underscores as the container name. -/
def handle_action_parse (data : Str) : Str × Str :=
  let parts := splitOne '_' data
  (parts.getD 1 [], pyJoin (("_").data) (parts.drop 2))

/-- Logs branch of `DockerBot.handle_action` (src/bot.py lines 258-267):
the fetched log text passes through `truncate_logs` and is wrapped in a
code block; the single back row's callback data is `container_` plus the
name the action was parsed for. -/
def handle_action_logs_render (name logs : Str) : Render :=
  ⟨("📝 *Логи ").data ++ name ++ (":*\n\n```\n").data
     ++ truncate_logs logs ++ ("\n```").data,
   [[⟨backLabel, cbContainerHead ++ name⟩]]⟩

/-- Python `s.startswith(head)`. -/
def pyStartswith : Str → Str → Bool
  | [], _ => true
  | _ :: _, [] => false
  | c :: cs, d :: ds => if c = d then pyStartswith cs ds else false

/-- Views of the navigation machine (spec section 4.3). `imageList` is
modelled from the spec: src/bot.py has no image view. `actionMessage` is
the plain one-shot status message rendered after start/stop/restart. -/
inductive View where
  | main
  | containerList
  | containerDetail (name : Str)
  | logsView (name : Str)
  | statsView
  | imageList
  | actionMessage (action : Str) (name : Str)
deriving DecidableEq

/-- Dispatch of `DockerBot.button_handler` (src/bot.py lines 152-161),
mapped to the view each branch renders, with the branches tested in source
order: `list`, `stats`, `back`, then the `container_` prefix, then the
`action_` prefix (whose handler shows the logs view for a logs action, a
one-shot status message for start/stop/restart, and nothing otherwise);
any other data falls through. -/
def button_step (data : Str) : Option View :=
  if data = cbList then some View.containerList
  else if data = cbStats then some View.statsView
  else if data = cbBack then some View.main
  else if pyStartswith cbContainerHead data then
    some (View.containerDetail (show_container_info_parse data))
  else if pyStartswith cbActionHead data then
    let an := handle_action_parse data
    if an.1 = ("logs").data then some (View.logsView an.2)
    else if an.1 = ("start").data ∨ an.1 = ("stop").data ∨ an.1 = ("restart").data then
      some (View.actionMessage an.1 an.2)
    else none
  else none

/-- Callback data carried by the back button each view's render displays
(none when the view shows no back button). The entries are read off the
render functions above; the `imageList` entry is modelled from the spec's
parent map (spec section 4.3). -/
def back_button_data : View → Option Str
  | View.main => none
  | View.containerList => some cbBack
  | View.statsView => some cbBack
  | View.containerDetail _ => some cbList
  | View.logsView name => some (cbContainerHead ++ name)
  | View.imageList => some cbBack
  | View.actionMessage _ _ => none

/-- The select(back) event: press the view's back button and dispatch its
callback data through `button_handler`. -/
def select_back (v : View) : Option View :=
  (back_button_data v).bind button_step

/-- Callback data of the last button of the last keyboard row of a render. -/
def render_back_data (r : Render) : Option Str :=
  (r.keyboard.getLast?).bind fun row => (row.getLast?).map Button.callback_data

/-- A keyboard appended with a final one-button row reports that button's
callback data as its back data. -/
theorem render_back_data_concat (t : Str) (rows : List (List Button)) (b : Button) :
    render_back_data ⟨t, rows ++ [[b]]⟩ = some b.callback_data := by
  unfold render_back_data
  simp [List.getLast?_concat]

/-- `splitOneAux` never returns an empty list of fields. -/
theorem splitOneAux_ne_nil (sep : Char) (s : Str) :
    ∀ acc, splitOneAux sep s acc ≠ [] := by
  induction s with
  | nil => intro acc; simp [splitOneAux]
  | cons c cs ih =>
    intro acc
    unfold splitOneAux
    by_cases hc : c = sep
    · simp [hc]
    · simpa [hc] using ih (c :: acc)

/-- Splitting a text that starts with a separator-free chunk followed by a
separator emits that chunk (after the pending accumulator) as one field. -/
theorem splitOneAux_append_sep (sep : Char) (x y : Str) :
    ∀ acc, sep ∉ x → splitOneAux sep (x ++ sep :: y) acc
      = (acc.reverse ++ x) :: splitOneAux sep y [] := by
  induction x with
  | nil =>
    intro acc h
    simp [splitOneAux]
  | cons c cs ih =>
    intro acc h
    have hc : c ≠ sep := fun e => h (by simp [e])
    simp only [List.cons_append, splitOneAux, if_neg hc, List.append_eq]
    rw [ih (c :: acc) (fun hm => h (List.mem_cons_of_mem _ hm))]
    simp

/-- Splitting a separator-free text yields the single field itself. -/
theorem splitOneAux_no_sep (sep : Char) (s : Str) :
    ∀ acc, sep ∉ s → splitOneAux sep s acc = [acc.reverse ++ s] := by
  induction s with
  | nil => intro acc h; simp [splitOneAux]
  | cons c cs ih =>
    intro acc h
    have hc : c ≠ sep := fun e => h (by simp [e])
    simp only [splitOneAux, if_neg hc]
    rw [ih (c :: acc) (fun hm => h (List.mem_cons_of_mem _ hm))]
    simp

/-- Joining with the separator is a left inverse of splitting on it. -/
theorem pyJoin_splitOneAux (sep : Char) (s : Str) :
    ∀ acc, pyJoin [sep] (splitOneAux sep s acc) = acc.reverse ++ s := by
  induction s with
  | nil => intro acc; simp [splitOneAux, pyJoin]
  | cons c cs ih =>
    intro acc
    by_cases hc : c = sep
    · subst hc
      simp only [splitOneAux, if_pos rfl]
      obtain ⟨r, rs, hr⟩ : ∃ r rs, splitOneAux c cs [] = r :: rs := by
        cases hsp : splitOneAux c cs [] with
        | nil => exact absurd hsp (splitOneAux_ne_nil c cs [])
        | cons r rs => exact ⟨r, rs, rfl⟩
      rw [hr]
      show List.reverse acc ++ [c] ++ pyJoin [c] (r :: rs) = List.reverse acc ++ c :: cs
      rw [← hr, ih []]
      simp
    · simp only [splitOneAux, if_neg hc]
      rw [ih (c :: acc)]
      simp

/-- The separator never occurs in the first field of a split. -/
theorem splitOneAux_head_not_mem (sep : Char) (s : Str) :
    ∀ acc, sep ∉ acc → sep ∉ (splitOneAux sep s acc).getD 0 [] := by
  induction s with
  | nil =>
    intro acc h
    simpa [splitOneAux] using fun hm => h (List.mem_reverse.mp hm)
  | cons c cs ih =>
    intro acc h
    by_cases hc : c = sep
    · subst hc
      simpa [splitOneAux] using fun hm => h (List.mem_reverse.mp hm)
    · simp only [splitOneAux, if_neg hc]
      refine ih (c :: acc) ?_
      intro hm
      rcases List.mem_cons.mp hm with h1 | h2
      · exact hc h1.symm
      · exact h h2

/-- The first field of a split equals the whole text exactly when the text
is separator-free. -/
theorem splitOne_head_eq_iff (sep : Char) (s : Str) :
    (splitOne sep s).getD 0 [] = s ↔ sep ∉ s := by
  constructor
  · intro h hmem
    have hnm := splitOneAux_head_not_mem sep s [] (by simp)
    rw [splitOne] at h
    rw [h] at hnm
    exact hnm hmem
  · intro h
    rw [splitOne, splitOneAux_no_sep sep s [] h]
    simp

/-- The detail-view name parsed from `container_` plus a name is the first
field of the underscore split of the name. -/
theorem show_container_info_parse_append (name : Str) :
    show_container_info_parse (cbContainerHead ++ name)
      = (splitOne '_' name).getD 0 [] := by
  unfold show_container_info_parse
  rw [show cbContainerHead ++ name = ("container").data ++ '_' :: name from rfl]
  rw [splitOne, splitOneAux_append_sep '_' (("container").data) name [] (by decide)]
  simp [splitOne]

/-- `show_container_info` recovers the original name exactly when the name
contains no underscore. -/
theorem show_container_info_parse_iff (name : Str) :
    show_container_info_parse (cbContainerHead ++ name) = name ↔ '_' ∉ name := by
  rw [show_container_info_parse_append]
  exact splitOne_head_eq_iff '_' name

/-- `handle_action` recovers both the action tag (underscore-free) and the
full container name, underscores included. -/
theorem handle_action_parse_append (action name : Str) (h : '_' ∉ action) :
    handle_action_parse (cbActionHead ++ action ++ '_' :: name) = (action, name) := by
  unfold handle_action_parse
  rw [show cbActionHead ++ action ++ '_' :: name
      = ("action").data ++ '_' :: (action ++ '_' :: name) from rfl]
  rw [splitOne,
    splitOneAux_append_sep '_' (("action").data) (action ++ '_' :: name) [] (by decide),
    splitOneAux_append_sep '_' action name [] h]
  rw [show (("_").data) = ['_'] from rfl]
  simp [pyJoin_splitOneAux '_' name []]

/-- C8: from Main, select(list) reaches the container-list view, whose
render (for a nonempty listing) carries a back button with callback data
`back`; dispatching `back` returns to Main, and the content `start_menu`
then renders is identical — text and keyboard — to the content `start`
rendered originally. -/
theorem c8_main_list_back_roundtrip :
    button_step cbList = some View.containerList
    ∧ (∀ (c : BotContainer) (cs : List BotContainer),
        render_back_data (show_containers_render (c :: cs)) = some cbBack)
    ∧ button_step cbBack = some View.main
    ∧ start_menu_render = start_render := by
  refine ⟨by decide, fun c cs => ?_, by decide, by decide⟩
  exact render_back_data_concat
    (("📋 *Список контейнеров:*\n\n").data ++ ((c :: cs).map containerBlock).flatten)
    ((c :: cs).map containerRow) ⟨backLabel, cbBack⟩

/-- C9 counterexample: from the logs view of container `my_app`, the back
button leads to the detail view of `my`, not back to `my_app`: the claimed
parent-map edge LogsView(id) to ContainerDetailView(id) fails for an id
containing an underscore. -/
theorem c9_counterexample :
    select_back (View.logsView (("my_app").data))
      = some (View.containerDetail (("my").data))
    ∧ View.containerDetail (("my").data) ≠ View.containerDetail (("my_app").data) := by
  exact ⟨by decide, by decide⟩

/-- C9 amended: select(back) follows the static parent map for
ContainerList, Stats and the spec-modelled ImageList (all to Main) and for
ContainerDetailView (to ContainerList); from LogsView(id) it reaches the
detail view of the first underscore-separated field of id — the original
id exactly when id contains no underscore — and each implemented view's
render really carries the mapped back callback data. -/
theorem c9_back_parent_map :
    select_back View.containerList = some View.main
    ∧ select_back View.statsView = some View.main
    ∧ select_back View.imageList = some View.main
    ∧ (∀ name : Str, select_back (View.containerDetail name) = some View.containerList)
    ∧ (∀ name : Str, select_back (View.logsView name)
        = some (View.containerDetail ((splitOne '_' name).getD 0 [])))
    ∧ (∀ name : Str, '_' ∉ name →
        select_back (View.logsView name) = some (View.containerDetail name))
    ∧ (∀ (c : BotContainer) (cs : List BotContainer),
        render_back_data (show_containers_render (c :: cs))
          = back_button_data View.containerList)
    ∧ (∀ (stats_text : Str) (running total : Nat),
        render_back_data (show_stats_render stats_text running total)
          = back_button_data View.statsView)
    ∧ (∀ name status image : Str,
        render_back_data (show_container_info_render name status image)
          = back_button_data (View.containerDetail name))
    ∧ (∀ name logs : Str,
        render_back_data (handle_action_logs_render name logs)
          = back_button_data (View.logsView name)) := by
  have hlogs : ∀ name : Str, select_back (View.logsView name)
      = some (View.containerDetail ((splitOne '_' name).getD 0 [])) := by
    intro name
    have h1 : select_back (View.logsView name)
        = some (View.containerDetail (show_container_info_parse (cbContainerHead ++ name))) :=
      rfl
    rw [h1, show_container_info_parse_append]
  refine ⟨by decide, by decide, by decide, fun name => rfl, hlogs, ?_, ?_, ?_, ?_, ?_⟩
  · intro name h
    rw [hlogs name, splitOne, splitOneAux_no_sep '_' name [] h]
    simp
  · intro c cs
    exact render_back_data_concat
      (("📋 *Список контейнеров:*\n\n").data ++ ((c :: cs).map containerBlock).flatten)
      ((c :: cs).map containerRow) ⟨backLabel, cbBack⟩
  · intro stats_text running total
    rfl
  · intro name status image
    by_cases hs : status = runningStatus
    · show render_back_data (show_container_info_render name status image) = _
      rw [show_container_info_render, if_pos hs]
      rfl
    · rw [show_container_info_render, if_neg hs]
      rfl
  · intro name logs
    rfl

/-- C9 witness: `c9_back_parent_map` at the underscore-free name `web`. -/
theorem c9_back_parent_map_witness :
    ('_' ∉ (("web").data))
    ∧ select_back (View.logsView (("web").data))
        = some (View.containerDetail (("web").data)) :=
  ⟨by decide, c9_back_parent_map.2.2.2.2.2.1 (("web").data) (by decide)⟩

/-- C10: the two callback parsers round-trip asymmetrically: for an
underscore-free action tag, `handle_action` recovers the action and the
full container name (underscores included) by rejoining every segment
after the second, while `show_container_info` keeps only the segment after
the first underscore and therefore recovers the name exactly when the name
contains no underscore. -/
theorem c10_callback_parsing :
    (∀ action name : Str, '_' ∉ action →
      handle_action_parse (cbActionHead ++ action ++ '_' :: name) = (action, name))
    ∧ (∀ name : Str,
        show_container_info_parse (cbContainerHead ++ name) = name ↔ '_' ∉ name) :=
  ⟨handle_action_parse_append, show_container_info_parse_iff⟩

/-- C10 witness: `c10_callback_parsing` at the action `stop` and the
underscore-carrying name `my_app`. -/
theorem c10_callback_parsing_witness :
    ('_' ∉ (("stop").data))
    ∧ handle_action_parse (cbActionHead ++ (("stop").data) ++ '_' :: (("my_app").data))
        = ((("stop").data), (("my_app").data)) :=
  ⟨by decide, c10_callback_parsing.1 (("stop").data) (("my_app").data) (by decide)⟩
